import Mathlib

/-!
Verification of the pyd3 repository's ID3v2 tag parsers.

The repository has two generations of the parser:
  * `src/pyd3/tags.py` — sequential frame walker (`get_tag` and its helpers);
  * `src/id3/tags.py`  — substring-search based extractor (`get_tags` and helpers).

Both operate on in-memory byte strings; files are modelled as `List Nat`
(each element a byte value).  Python exceptions are modelled with `Except`:
the error type `PyErr` lists exactly the exceptions the embedded code can
raise.  Python's `file.read`, slicing (including negative indices) and the
text codecs (Latin-1, UTF-8, UTF-16-LE/BE, both strict) are embedded with
their Python semantics.
-/

set_option maxRecDepth 100000

deriving instance DecidableEq for Except

namespace Py

/-- Errors the embedded Python code can raise.  `nonTermination` stands for
the infinite loop `get_tag` enters when the byte source ends before the
declared tag size is reached (every `file.read` then returns no bytes and
`file.tell()` stops advancing). -/
inductive PyErr where
  | indexError
  | keyError (key : String)
  | unicodeDecodeError
  | notImplementedError (msg : String)
  | attributeError
  | nonTermination
deriving DecidableEq, Repr

/-- Python indexing `data[i]` with an integer index: a negative index counts
from the end; an out-of-range index raises IndexError. -/
def pyIndex (data : List Nat) (i : Int) : Except PyErr Nat :=
  let j : Int := if i < 0 then i + data.length else i
  if h : j.toNat < data.length ∧ 0 ≤ j then Except.ok (data.get ⟨j.toNat, h.1⟩)
  else Except.error PyErr.indexError

/-- Normalisation of one slice bound, as Python does it: a negative bound
counts from the end (clamped below at 0), a non-negative bound is clamped
above at the length. -/
def sliceIdx (len : Nat) (i : Int) : Nat :=
  if i < 0 then (i + len).toNat else min i.toNat len

/-- Python slicing `data[a:b]` (step 1), with Python's clamping rules. -/
def pySlice (data : List Nat) (a b : Int) : List Nat :=
  (data.take (sliceIdx data.length b)).drop (sliceIdx data.length a)

/-- Python slicing `data[a:]`. -/
def pySliceFrom (data : List Nat) (a : Int) : List Nat :=
  data.drop (sliceIdx data.length a)

/-- One `file.read(n)` on an in-memory byte source: returns up to `n` bytes
starting at the cursor and the new cursor position (`file.tell()` advances
by the number of bytes actually read). -/
def readF (data : List Nat) (pos n : Nat) : List Nat × Nat :=
  let bs := (data.drop pos).take n
  (bs, pos + bs.length)

/-- ISO-8859-1 (Latin-1) decoding: every byte value is a character at the
same code point, so decoding is total. -/
def latin1Decode (l : List Nat) : String :=
  String.mk (l.map Char.ofNat)

/-- Strict UTF-8 decoding of a byte list into characters, mirroring
Python's `bytes.decode("utf-8")`: rejects truncated sequences, overlong
encodings, surrogates and code points above U+10FFFF (`none` stands for a
raised UnicodeDecodeError). -/
def utf8Chars : List Nat → Option (List Char)
  | [] => some []
  | b :: rest =>
    if b < 128 then
      (utf8Chars rest).map (fun cs => Char.ofNat b :: cs)
    else if b < 194 then none
    else if b < 224 then
      match rest with
      | c1 :: rest2 =>
        if 128 ≤ c1 ∧ c1 < 192 then
          (utf8Chars rest2).map (fun cs => Char.ofNat ((b - 192) * 64 + (c1 - 128)) :: cs)
        else none
      | [] => none
    else if b < 240 then
      match rest with
      | c1 :: c2 :: rest3 =>
        let lo1 := if b = 224 then 160 else 128
        let hi1 := if b = 237 then 160 else 192
        if lo1 ≤ c1 ∧ c1 < hi1 ∧ 128 ≤ c2 ∧ c2 < 192 then
          (utf8Chars rest3).map
            (fun cs => Char.ofNat (((b - 224) * 64 + (c1 - 128)) * 64 + (c2 - 128)) :: cs)
        else none
      | _ => none
    else if b < 245 then
      match rest with
      | c1 :: c2 :: c3 :: rest4 =>
        let lo1 := if b = 240 then 144 else 128
        let hi1 := if b = 244 then 144 else 192
        if lo1 ≤ c1 ∧ c1 < hi1 ∧ 128 ≤ c2 ∧ c2 < 192 ∧ 128 ≤ c3 ∧ c3 < 192 then
          (utf8Chars rest4).map
            (fun cs =>
              Char.ofNat ((((b - 240) * 64 + (c1 - 128)) * 64 + (c2 - 128)) * 64 + (c3 - 128)) :: cs)
        else none
      | _ => none
    else none

/-- Python `bytes.decode()` (strict UTF-8) returning a string or raising. -/
def utf8DecodeE (l : List Nat) : Except PyErr String :=
  match utf8Chars l with
  | some cs => Except.ok (String.mk cs)
  | none => Except.error PyErr.unicodeDecodeError

/-- Byte pairs to little-endian 16-bit code units; `none` models the
UnicodeDecodeError Python raises on an odd number of bytes. -/
def utf16UnitsLE : List Nat → Option (List Nat)
  | [] => some []
  | [_] => none
  | a :: b :: rest => (utf16UnitsLE rest).map (fun us => (a + 256 * b) :: us)

/-- Byte pairs to big-endian 16-bit code units. -/
def utf16UnitsBE : List Nat → Option (List Nat)
  | [] => some []
  | [_] => none
  | a :: b :: rest => (utf16UnitsBE rest).map (fun us => (256 * a + b) :: us)

/-- Combine UTF-16 code units into characters, pairing surrogates; `none`
models the UnicodeDecodeError Python raises on an unpaired surrogate. -/
def combineUtf16 : List Nat → Option (List Char)
  | [] => some []
  | u :: rest =>
    if u < 55296 ∨ 57344 ≤ u then
      (combineUtf16 rest).map (fun cs => Char.ofNat u :: cs)
    else if u < 56320 then
      match rest with
      | v :: rest2 =>
        if 56320 ≤ v ∧ v < 57344 then
          (combineUtf16 rest2).map
            (fun cs => Char.ofNat (65536 + (u - 55296) * 1024 + (v - 56320)) :: cs)
        else none
      | [] => none
    else none

/-- Python `bytes.decode("utf-16le")`, strict. -/
def utf16leDecode (l : List Nat) : Option (List Char) :=
  (utf16UnitsLE l).bind combineUtf16

/-- Python `bytes.decode("utf-16be")`, strict. -/
def utf16beDecode (l : List Nat) : Option (List Char) :=
  (utf16UnitsBE l).bind combineUtf16

/-- Python `bytes.decode("utf-16")`: honours a leading byte-order mark
(consuming it); without one it decodes little-endian (the platform default
assumed by the repository). -/
def utf16Decode (l : List Nat) : Option (List Char) :=
  if [255, 254].isPrefixOf l then utf16leDecode (l.drop 2)
  else if [254, 255].isPrefixOf l then utf16beDecode (l.drop 2)
  else utf16leDecode l

end Py

namespace Pyd3

open Py (PyErr)

/-- Decoded content of one frame, as produced by the three decoders of
src/pyd3/tags.py: a text frame yields a string, parse_comment_frame a
language / description / text triple, parse_apic_frame a mimetype,
description, picture type and raw bytes. -/
inductive FrameContent where
  | text (s : String)
  | comment (language description text : String)
  | picture (mimetype : String) (description : String) (ptype : Nat) (bytes : List Nat)
deriving DecidableEq, Repr

/-- Removal of all NUL characters from a string, as the Python expression
text.replace(chr 0, empty) does at the end of decode_id3_text. -/
def removeNull (s : String) : String :=
  String.mk (s.data.filter (fun c => c ≠ Char.ofNat 0))

/-- src/pyd3/tags.py decode_id3_text: encoding 0 decodes Latin-1;
encoding 1 decodes strict UTF-16-LE and then drops the first character
when the bytes begin with the UTF-16-LE byte-order mark; any other
encoding yields the empty string; finally all NUL characters are removed. -/
def decode_id3_text (text_bytes : List Nat) (encoding : Nat) : Except PyErr String :=
  let decoded : Except PyErr String :=
    if encoding = 0 then Except.ok (Py.latin1Decode text_bytes)
    else if encoding = 1 then
      match Py.utf16leDecode text_bytes with
      | none => Except.error PyErr.unicodeDecodeError
      | some cs =>
        Except.ok (if [255, 254].isPrefixOf text_bytes then String.mk cs.tail else String.mk cs)
    else Except.ok ""
  match decoded with
  | Except.error e => Except.error e
  | Except.ok text => Except.ok (removeNull text)

/-- src/pyd3/tags.py parse_text_frame: byte 0 selects the encoding, the
rest is the payload handed to decode_id3_text.  An empty body raises
IndexError at data[0]. -/
def parse_text_frame (data : List Nat) : Except PyErr String :=
  match Py.pyIndex data 0 with
  | Except.error e => Except.error e
  | Except.ok encoding => decode_id3_text (Py.pySliceFrom data 1) encoding

/-- Scan for a single zero byte (the encoding-0 loop of find_terminator,
for i in range(offset, length)), walking the suffix of the data that
starts at index i: the head of the suffix is data[i]. -/
def findTermSingle : List Nat → Nat → Int
  | [], _ => -1
  | b :: rest, i => if b = 0 then (i : Int) else findTermSingle rest (i + 1)

/-- Scan for an aligned 0x00 0x00 pair in steps of two (the loop of
find_terminator for non-zero encodings, for i in range(offset, length - 1,
2)), walking the suffix starting at index i: the loop body runs exactly
when two bytes remain. -/
def findTermPair : List Nat → Nat → Int
  | a :: b :: rest, i =>
    if a = 0 ∧ b = 0 then (i : Int) else findTermPair rest (i + 2)
  | _, _ => -1

/-- src/pyd3/tags.py find_terminator: index of the start of the null
terminator, scanning from offset; -1 when absent.  All call sites pass a
non-negative offset. -/
def find_terminator (data : List Nat) (offset : Nat) (encoding : Nat) : Int :=
  if encoding = 0 then findTermSingle (data.drop offset) offset
  else findTermPair (data.drop offset) offset

/-- src/pyd3/tags.py parse_comment_frame: encoding byte, 3 language bytes
decoded with Python's default (strict UTF-8) codec, then the description up
to the terminator found from offset 4, then the text taken from two bytes
past the terminator start. -/
def parse_comment_frame (data : List Nat) : Except PyErr FrameContent :=
  match Py.pyIndex data 0 with
  | Except.error e => Except.error e
  | Except.ok encoding =>
    match Py.utf8DecodeE (Py.pySlice data 1 4) with
    | Except.error e => Except.error e
    | Except.ok language =>
      let null_index := find_terminator data 4 encoding
      match decode_id3_text (Py.pySlice data 4 null_index) encoding with
      | Except.error e => Except.error e
      | Except.ok description =>
        match decode_id3_text (Py.pySliceFrom data (null_index + 2)) encoding with
        | Except.error e => Except.error e
        | Except.ok text => Except.ok (FrameContent.comment language description text)

/-- src/pyd3/tags.py parse_apic_frame: encoding byte, single-byte-scanned
mimetype terminator, mimetype decoded with Python's default (strict UTF-8)
codec, picture-type byte, encoding-aware description terminator, and the
remainder as picture bytes. -/
def parse_apic_frame (data : List Nat) : Except PyErr FrameContent :=
  match Py.pyIndex data 0 with
  | Except.error e => Except.error e
  | Except.ok encoding =>
    let mimetype_terminator := find_terminator data 1 0
    match Py.utf8DecodeE (Py.pySlice data 1 mimetype_terminator) with
    | Except.error e => Except.error e
    | Except.ok mimetype =>
      match Py.pyIndex data (mimetype_terminator + 1) with
      | Except.error e => Except.error e
      | Except.ok picture_type =>
        let desc_terminator := find_terminator data (mimetype_terminator + 2).toNat encoding
        match decode_id3_text (Py.pySlice data (mimetype_terminator + 2) desc_terminator) encoding with
        | Except.error e => Except.error e
        | Except.ok description =>
          Except.ok (FrameContent.picture mimetype description picture_type
            (Py.pySliceFrom data (desc_terminator + 1)))

/-- Python int.from_bytes with its default big-endian byte order, as used
for the frame size in get_tag. -/
def intFromBytes (l : List Nat) : Nat :=
  l.foldl (fun acc b => acc * 256 + b) 0

/-- The inline tag-size decode of get_tag:
(view 0 shifted 21) or (view 1 shifted 14) or (view 2 shifted 7) or view 3. -/
def tagSizeFromView (v0 v1 v2 v3 : Nat) : Nat :=
  v0 <<< 21 ||| v1 <<< 14 ||| v2 <<< 7 ||| v3

/-- Test for an uppercase-alphanumeric character, the character class of
the frame-id pattern in get_tag. -/
def isUpperAlnum (c : Char) : Bool :=
  (48 ≤ c.toNat && c.toNat ≤ 57) || (65 ≤ c.toNat && c.toNat ≤ 90)

/-- The test re.match of the pattern anchored T, three of class 0-9A-Z,
end, applied to the decoded frame id: a 4-character string starting with T
whose remaining characters are digits or uppercase letters.  Latin-1
decoding is one character per byte, so the check on the decoded string is
the byte-level check. -/
def isTextFrameId (s : String) : Bool :=
  match s.data with
  | [t, a, b, c] => t = Char.ofNat 84 && isUpperAlnum a && isUpperAlnum b && isUpperAlnum c
  | _ => false

/-- Python dict insertion semantics for metadata.update: an existing key
keeps its position and gets the new value, a new key is appended. -/
def dictInsert (m : List (String × FrameContent)) (k : String) (v : FrameContent) :
    List (String × FrameContent) :=
  if m.any (fun p => p.1 == k) then m.map (fun p => if p.1 == k then (k, v) else p)
  else m ++ [(k, v)]

/-- src/pyd3/tags.py METADATA_MAP. -/
def METADATA_MAP : List (String × String) :=
  [("TIT2", "title"), ("TALB", "album"), ("TPUB", "publisher"), ("TCON", "genre"),
   ("TYER", "year"), ("TRCK", "track_number"), ("TPOS", "disc_number"), ("TPE1", "artist"),
   ("TPE2", "accompaniment"), ("TCOM", "composer"), ("APIC", "artwork"), ("COMM", "comments"),
   ("WXXX", "url")]

/-- src/pyd3/tags.py format_tags: sets one attribute per collected frame,
looking the friendly name up in METADATA_MAP (a missing key raises
KeyError).  The resulting Mp3Tag object is modelled as its list of
dynamically assigned attributes in assignment order. -/
def format_tags (frames : List (String × FrameContent)) :
    Except PyErr (List (String × FrameContent)) :=
  frames.foldlM
    (fun tag kv =>
      match METADATA_MAP.find? (fun p => p.1 == kv.1) with
      | some p => Except.ok (dictInsert tag p.2 kv.2)
      | none => Except.error (PyErr.keyError kv.1))
    []

/-- The frame loop of src/pyd3/tags.py get_tag: while the cursor is before
tag_size, read a 4-byte id, a 4-byte big-endian size, 2 flag bytes and the
body, dispatch on the id (text pattern excluding TXXX, APIC, COMM, anything
else skipped), and record the content under the decoded id.  fuel bounds
the iteration count; running out models the infinite loop Python enters
when the source is exhausted before tag_size (reads stop advancing). -/
def processFrames (data : List Nat) (tagSize : Nat)
    (metadata : List (String × FrameContent)) (pos fuel : Nat) :
    Except PyErr (List (String × FrameContent)) :=
  match fuel with
  | 0 => Except.error PyErr.nonTermination
  | fuel + 1 =>
    if pos < tagSize then
      let r1 := Py.readF data pos 4
      let frame_id := Py.latin1Decode r1.1
      let r2 := Py.readF data r1.2 4
      let frame_size := intFromBytes r2.1
      let r3 := Py.readF data r2.2 2
      let r4 := Py.readF data r3.2 frame_size
      if isTextFrameId frame_id && frame_id != "TXXX" then
        match parse_text_frame r4.1 with
        | Except.error e => Except.error e
        | Except.ok s =>
          processFrames data tagSize (dictInsert metadata frame_id (FrameContent.text s)) r4.2 fuel
      else if frame_id == "APIC" then
        match parse_apic_frame r4.1 with
        | Except.error e => Except.error e
        | Except.ok c => processFrames data tagSize (dictInsert metadata frame_id c) r4.2 fuel
      else if frame_id == "COMM" then
        match parse_comment_frame r4.1 with
        | Except.error e => Except.error e
        | Except.ok c => processFrames data tagSize (dictInsert metadata frame_id c) r4.2 fuel
      else processFrames data tagSize metadata r4.2 fuel
    else Except.ok metadata

/-- src/pyd3/tags.py get_tag on an in-memory byte source: 3 bytes compared
with "ID3" (mismatch returns None, modelled as ok none); 2 bytes whose
first must be 3 (otherwise NotImplementedError with a fixed message; an
empty read raises IndexError at subscript 0); 4 bytes combined by
tagSizeFromView (fewer than 4 raises IndexError); 1 byte skipped;
then the frame loop runs until tag_size = size + HEADER_LENGTH, and the
collected frames are formatted through METADATA_MAP.  Note the code reads
the version and revision bytes as one read(2), so the 4 size bytes it
combines are source offsets 5 to 8 and the skipped byte is offset 9. -/
def get_tag (data : List Nat) : Except PyErr (Option (List (String × FrameContent))) :=
  let r0 := Py.readF data 0 3
  if r0.1 ≠ [73, 68, 51] then Except.ok none
  else
    let r1 := Py.readF data r0.2 2
    match r1.1 with
    | [] => Except.error PyErr.indexError
    | b :: _ =>
      if b ≠ 3 then Except.error (PyErr.notImplementedError "ID3v2.4 not currently supported")
      else
        let r2 := Py.readF data r1.2 4
        match r2.1 with
        | [v0, v1, v2, v3] =>
          let size := tagSizeFromView v0 v1 v2 v3
          let r3 := Py.readF data r2.2 1
          let tag_size := size + 10
          match processFrames data tag_size [] r3.2 (data.length + 1) with
          | Except.error e => Except.error e
          | Except.ok md =>
            match format_tags md with
            | Except.error e => Except.error e
            | Except.ok tag => Except.ok (some tag)
        | _ => Except.error PyErr.indexError

end Pyd3

namespace Id3

open Py (PyErr)

/-- Decoded content of one frame in src/id3/tags.py: handle_text_frame
yields a string, handle_image_frame yields image bytes or Python None
(for a non-JPEG mimetype). -/
inductive Content where
  | text (s : String)
  | image (b : Option (List Nat))
deriving DecidableEq, Repr

/-- Membership in Python's string.printable: the ASCII graphic characters
and space (code points 32 to 126) together with tab, newline, vertical
tab, form feed and carriage return (9 to 13). -/
def isPrintableChar (c : Char) : Bool :=
  (32 ≤ c.toNat && c.toNat ≤ 126) || (9 ≤ c.toNat && c.toNat ≤ 13)

/-- src/id3/tags.py clean_string: keep only the characters found in
string.printable. -/
def clean_string (s : String) : String :=
  String.mk (s.data.filter isPrintableChar)

/-- src/id3/tags.py extract_text: remove NUL characters, then clean. -/
def extract_text (s : String) : String :=
  clean_string (String.mk (s.data.filter (fun c => c ≠ Char.ofNat 0)))

/-- src/id3/tags.py int_from_sync_safe: the sum over enumerate of each
byte shifted left by (3 - i) * 7 bits.  No masking of bit 7 is performed.
Python raises ValueError on inputs longer than 4 bytes (negative shift);
every call site passes at most 4 bytes, and the subtraction 3 - i here is
the truncated Nat subtraction, so the embedding agrees with the source on
all inputs of length at most 4. -/
def int_from_sync_safe (data : List Nat) : Nat :=
  (data.enum.map (fun p => p.2 <<< ((3 - p.1) * 7))).sum

/-- First index at or above i where needle is a prefix of the walked
suffix of the haystack, else -1. -/
def bytesFindFrom (needle : List Nat) : List Nat → Nat → Int
  | [], i => if needle.isPrefixOf [] then (i : Int) else -1
  | a :: rest, i =>
    if needle.isPrefixOf (a :: rest) then (i : Int) else bytesFindFrom needle rest (i + 1)

/-- Python bytes.find: index of the first occurrence of needle, else -1
(an empty needle matches at index 0). -/
def bytesFind (hay needle : List Nat) : Int :=
  bytesFindFrom needle hay 0

/-- Last index at or above i where needle is a prefix of the walked suffix
of the haystack, else -1. -/
def bytesRFindFrom (needle : List Nat) : List Nat → Nat → Int
  | [], i => if needle.isPrefixOf [] then (i : Int) else -1
  | a :: rest, i =>
    let r := bytesRFindFrom needle rest (i + 1)
    if r ≠ -1 then r
    else if needle.isPrefixOf (a :: rest) then (i : Int) else -1

/-- Python bytes.rfind: index of the last occurrence of needle, else -1
(an empty needle matches at the end). -/
def bytesRFind (hay needle : List Nat) : Int :=
  bytesRFindFrom needle hay 0

/-- src/id3/tags.py FRAME_ENCODING, keyed by the encoding byte; a missing
key raises KeyError at the lookup. -/
def FRAME_ENCODING (n : Nat) : Option String :=
  if n = 0 then some "ISO-8859-1"
  else if n = 1 then some "UTF-16"
  else if n = 2 then some "UTF-16BE"
  else if n = 3 then some "UTF-8"
  else none

/-- Decoding of a byte string by the codec name drawn from FRAME_ENCODING,
with Python's strict error handling. -/
def decodeByName (codec : String) (l : List Nat) : Except PyErr String :=
  if codec = "ISO-8859-1" then Except.ok (Py.latin1Decode l)
  else if codec = "UTF-16" then
    match Py.utf16Decode l with
    | some cs => Except.ok (String.mk cs)
    | none => Except.error PyErr.unicodeDecodeError
  else if codec = "UTF-16BE" then
    match Py.utf16beDecode l with
    | some cs => Except.ok (String.mk cs)
    | none => Except.error PyErr.unicodeDecodeError
  else Py.utf8DecodeE l

/-- Length of the maximal run of lowercase letters a-z at the head. -/
def lowerRun : List Char → Nat
  | c :: rest => if 97 ≤ c.toNat && c.toNat ≤ 122 then lowerRun rest + 1 else 0
  | [] => 0

/-- The characters of the literal image/ . -/
def imageLit : List Char := [Char.ofNat 105, Char.ofNat 109, Char.ofNat 97,
  Char.ofNat 103, Char.ofNat 101, Char.ofNat 47]

/-- Match of the pattern image/ followed by one or more lowercase letters
anchored at the head of cs: the length of the (greedy) match, if any. -/
def imageMatchAt (cs : List Char) : Option Nat :=
  if imageLit.isPrefixOf cs then
    let r := lowerRun (cs.drop 6)
    if r = 0 then none else some (6 + r)
  else none

/-- re.search of the pattern image/ then one or more lowercase letters:
the first character position with a match, returned as match start and
match end. -/
def searchImage : List Char → Nat → Option (Nat × Nat)
  | [], _ => none
  | c :: rest, i =>
    match imageMatchAt (c :: rest) with
    | some len => some (i, i + len)
    | none => searchImage rest (i + 1)

/-- JPEG start-of-image marker bytes. -/
def JPEG_SOI_MARKER : List Nat := [255, 216]

/-- JPEG end-of-image marker bytes. -/
def JPEG_EOI_MARKER : List Nat := [255, 217]

/-- src/id3/tags.py handle_image_frame: look up the codec for the encoding
byte, decode the whole frame, regex-search for the mimetype (no match
raises AttributeError on None.start), slice the mimetype out of the BYTE
string at the CHARACTER match positions (as the source does), return None
unless it is image/jpeg, else slice the tag from the first SOI marker to
two past the last EOI marker. -/
def handle_image_frame (frame_data tag : List Nat) : Except PyErr (Option (List Nat)) :=
  match Py.pyIndex frame_data 0 with
  | Except.error e => Except.error e
  | Except.ok text_encoding =>
    match FRAME_ENCODING text_encoding with
    | none => Except.error (PyErr.keyError (toString text_encoding))
    | some codec =>
      match decodeByName codec frame_data with
      | Except.error e => Except.error e
      | Except.ok decoded =>
        match searchImage decoded.data 0 with
        | none => Except.error PyErr.attributeError
        | some se =>
          let mime_type := Py.pySlice frame_data (se.1 : Int) (se.2 : Int)
          if mime_type ≠ [105, 109, 97, 103, 101, 47, 106, 112, 101, 103] then
            Except.ok none
          else
            let img_start := bytesFind tag JPEG_SOI_MARKER
            let img_end := bytesRFind tag JPEG_EOI_MARKER
            Except.ok (some (Py.pySlice tag img_start (img_end + 2)))

/-- src/id3/tags.py handle_text_frame: Latin-1 decode of the whole frame
body, cleaned of non-printable characters.  The tag argument is the unused
placeholder of the source. -/
def handle_text_frame (frame_data _tag : List Nat) : String :=
  clean_string (Py.latin1Decode frame_data)

/-- src/id3/tags.py _get_tag_data: find the frame id anywhere in the tag
by substring search, take the 10 bytes there as the frame header, decode
its size field bytes 4 to 8 with int_from_sync_safe, slice out that many
body bytes after the header, and dispatch APIC to the image handler and
everything else to the text handler. -/
def _get_tag_data (tag frame_id_bytes : List Nat) : Except PyErr Content :=
  let tag_start_idx := bytesFind tag frame_id_bytes
  let frame_header := Py.pySlice tag tag_start_idx (tag_start_idx + 10)
  let frame_id := Py.latin1Decode (Py.pySlice frame_header 0 4)
  let frame_size := int_from_sync_safe (Py.pySlice frame_header 4 8)
  let offset := tag_start_idx + 10
  let frame_data := Py.pySlice tag offset (offset + (frame_size : Int))
  if frame_id = "APIC" then
    match handle_image_frame frame_data tag with
    | Except.error e => Except.error e
    | Except.ok img => Except.ok (Content.image img)
  else Except.ok (Content.text (handle_text_frame frame_data tag))

/-- src/id3/tags.py FRAME_IDS, as byte strings. -/
def FRAME_IDS : List (List Nat) :=
  [[84, 73, 84, 50], [84, 65, 76, 66], [84, 80, 85, 66], [84, 67, 79, 78],
   [84, 89, 69, 82], [84, 82, 67, 75], [84, 79, 80, 83], [84, 80, 69, 49],
   [84, 80, 69, 50], [84, 67, 79, 77], [65, 80, 73, 67], [67, 79, 77, 77],
   [87, 88, 88, 88]]

/-- src/id3/tags.py get_tags, modelled through frame extraction: read the
10-byte header, return the absent-tag outcome (Python returns an empty
dict) when bytes 0 to 3 are not ID3, else decode the tag size from header
bytes 6 to 10 with int_from_sync_safe, slice the tag region, and collect
_get_tag_data for every known frame id found in the region, keyed by the
Latin-1 decoded id in FRAME_IDS order (Python dict insertion order).  The
final prettify_tags / pydantic construction of the source is presentation
glue past the frame map and is not modelled. -/
def get_tags_frames (data : List Nat) : Except PyErr (Option (List (String × Content))) :=
  let id3v2_header := (Py.readF data 0 10).1
  if Py.pySlice id3v2_header 0 3 ≠ [73, 68, 51] then Except.ok none
  else
    let tag_size := int_from_sync_safe (Py.pySlice id3v2_header 6 10)
    let tag := ((data.drop 10).take tag_size)
    let fids := FRAME_IDS.filter (fun fid => bytesFind tag fid ≠ -1)
    match fids.foldlM
        (fun acc fid =>
          match _get_tag_data tag fid with
          | Except.error e => Except.error e
          | Except.ok c => Except.ok (acc ++ [(Py.latin1Decode fid, c)]))
        ([] : List (String × Content)) with
    | Except.error e => Except.error e
    | Except.ok frames => Except.ok (some frames)

end Id3

/-!
Concrete byte sources used by the claim theorems below.
-/

/-- Source whose single TIT2 frame declares its size as 0x00 0x00 0x01 0x00:
big-endian that is 256, synchsafe it would be 128.  The frame body is one
encoding byte followed by 255 copies of byte 65, then 10 bytes of padding.
The header size bytes (source offsets 5 to 8, the four bytes get_tag
combines) encode 276, so tag_size is 286 and the loop covers the whole
source. -/
def srcC2 : List Nat :=
  [73, 68, 51, 3, 0, 0, 0, 2, 20, 0, 84, 73, 84, 50, 0, 0, 1, 0, 0, 0] ++
    (0 :: List.replicate 255 65) ++ List.replicate 10 0

/-- The 30 bytes spelling BEYOND five times, placed past the tag-region
boundary of srcC3 and srcC3sz. -/
def beyondBytes : List Nat :=
  [66, 69, 89, 79, 78, 68] ++ [66, 69, 89, 79, 78, 68] ++ [66, 69, 89, 79, 78, 68] ++
    [66, 69, 89, 79, 78, 68] ++ [66, 69, 89, 79, 78, 68]

/-- Source with tag size 20 (tag region = byte offsets 10 to 30) whose one
TIT2 frame declares body size 100 although only 10 bytes remain in the
region: encoding byte 0 and nine bytes 65 lie inside the region, and
beyondBytes (offsets 30 to 60) lies wholly outside it. -/
def srcC3 : List Nat :=
  [73, 68, 51, 3, 0, 0, 0, 0, 20, 0, 84, 73, 84, 50, 0, 0, 0, 100, 0, 0, 0] ++
    List.replicate 9 65 ++ beyondBytes

/-- The bytes of srcC3 past the 10-byte header, with the declared frame
size generalised: the last two size bytes hold sz / 256 and sz % 256, so
the declared size is sz for any sz < 65536. -/
def srcC3tail (sz : Nat) : List Nat :=
  [84, 73, 84, 50, 0, 0, sz / 256, sz % 256, 0, 0, 0] ++ List.replicate 9 65 ++ beyondBytes

/-- srcC3 with the declared frame size generalised to sz. -/
def srcC3sz (sz : Nat) : List Nat :=
  [73, 68, 51, 3, 0, 0, 0, 0, 20, 0] ++ srcC3tail sz

/-- A 20-byte id3 tag region whose TIT2 frame declares body size 100
though only 10 body bytes follow the 10-byte frame header. -/
def tagC3trunc : List Nat :=
  [84, 73, 84, 50, 0, 0, 0, 100, 0, 0] ++ (0 :: List.replicate 9 65)

/-- A 10-byte source starting ID3 with version byte 4. -/
def srcV4 : List Nat := [73, 68, 51, 4, 0, 0, 0, 0, 0, 0]

/-- A 10-byte source starting ID3 with version byte 5. -/
def srcV5 : List Nat := [73, 68, 51, 5, 0, 0, 0, 0, 0, 0]

/-- Source starting ID3 with version byte 4 and a TIT2 frame holding the
text Hello, for the id3 parser (which reads its tag size from the correct
header offsets 6 to 10). -/
def srcId3V4 : List Nat :=
  [73, 68, 51, 4, 0, 0, 0, 0, 0, 16] ++ [84, 73, 84, 50, 0, 0, 0, 6, 0, 0] ++
    [0, 72, 101, 108, 108, 111]

/-- A 24-byte tag region: an unrecognized frame with id XXXX and a 2-byte
body, followed by a TIT2 text frame decoding to H. -/
def regionC7 : List Nat :=
  [88, 88, 88, 88, 0, 0, 0, 2, 0, 0, 1, 2] ++ [84, 73, 84, 50, 0, 0, 0, 2, 0, 0, 0, 72]

/-- Source for the id3 parser whose 38-byte tag region holds an unknown
XXXX frame (declared size 12) whose body embeds a fake TIT2 frame header
with body bytes 0 65, followed by a genuine TIT2 frame whose body decodes
to Hello.  The first occurrence of the bytes TIT2 in the region is at
region offset 10, inside the XXXX frame's body; the genuine frame sits at
region offset 22. -/
def srcC7id3 : List Nat :=
  [73, 68, 51, 3, 0, 0, 0, 0, 0, 38] ++
    [88, 88, 88, 88, 0, 0, 0, 12, 0, 0] ++
    ([84, 73, 84, 50, 0, 0, 0, 2, 0, 0] ++ [0, 65]) ++
    [84, 73, 84, 50, 0, 0, 0, 6, 0, 0] ++ [0, 72, 101, 108, 108, 111]

/-- The comment body of the spec's round-trip example: encoding 0, language
eng, description short with a single NUL terminator, text full text. -/
def commBody : List Nat :=
  [0, 101, 110, 103] ++ [115, 104, 111, 114, 116, 0] ++
    [102, 117, 108, 108, 32, 116, 101, 120, 116]

/-!
General lemmas shared by the claim theorems.
-/

/-- Taking min n (length) is the same as taking n. -/
theorem take_min_length (l : List Nat) (n : Nat) : l.take (min n l.length) = l.take n := by
  rcases Nat.le_total n l.length with h | h
  · rw [Nat.min_eq_left h]
  · rw [Nat.min_eq_right h, List.take_of_length_le h, List.take_length]

/-- A pySlice starting at 0 with a non-negative literal bound is a take. -/
theorem pySlice_zero_three (l : List Nat) : Py.pySlice l 0 3 = l.take 3 := by
  unfold Py.pySlice Py.sliceIdx
  norm_num [Int.toNat_ofNat]
  rfl

/-- Closed form of int_from_sync_safe on a 4-byte input: the bytes are
shifted and ADDED, with no masking of bit 7. -/
theorem int_from_sync_safe_four (b0 b1 b2 b3 : Nat) :
    Id3.int_from_sync_safe [b0, b1, b2, b3] = b0 * 2097152 + b1 * 16384 + b2 * 128 + b3 := by
  simp [Id3.int_from_sync_safe, List.enum, List.enumFrom, Nat.shiftLeft_eq]
  ring

/-- When every byte is below 128 the or-packing of tagSizeFromView is the
plain sum of the shifted bytes. -/
theorem tagSizeFromView_eq_sum (b0 b1 b2 b3 : Nat)
    (h1 : b1 < 128) (h2 : b2 < 128) (h3 : b3 < 128) :
    Pyd3.tagSizeFromView b0 b1 b2 b3 = b0 * 2097152 + b1 * 16384 + b2 * 128 + b3 := by
  have k3 : b3 < 2 ^ 7 := by norm_num; omega
  have k2 : 2 ^ 7 * b2 + b3 < 2 ^ 14 := by norm_num; omega
  have k1 : 2 ^ 14 * b1 + (2 ^ 7 * b2 + b3) < 2 ^ 21 := by norm_num; omega
  unfold Pyd3.tagSizeFromView
  rw [Nat.lor_assoc, Nat.lor_assoc, Nat.shiftLeft_eq, Nat.shiftLeft_eq, Nat.shiftLeft_eq,
    Nat.mul_comm b2 (2 ^ 7), ← Nat.mul_add_lt_is_or k3 b2,
    Nat.mul_comm b1 (2 ^ 14), ← Nat.mul_add_lt_is_or k2 b1,
    Nat.mul_comm b0 (2 ^ 21), ← Nat.mul_add_lt_is_or k1 b0]
  norm_num
  ring

/-- One step of the frame walker on a text frame: when the 4 bytes at the
cursor decode to a text-frame id other than TXXX, the walk reads the
header and body and either propagates the text decoder's failure or
records the decoded text and continues past the frame. -/
theorem processFrames_text_step (data : List Nat) (tagSize : Nat)
    (md : List (String × Pyd3.FrameContent)) (pos fuel : Nat) (fid : String)
    (hfid : fid = Py.latin1Decode ((data.drop pos).take 4))
    (hpos : pos < tagSize)
    (h1 : (Pyd3.isTextFrameId fid && fid != "TXXX") = true) :
    Pyd3.processFrames data tagSize md pos (fuel + 1) =
      match Pyd3.parse_text_frame
          (Py.readF data (Py.readF data (Py.readF data (Py.readF data pos 4).2 4).2 2).2
            (Pyd3.intFromBytes (Py.readF data (Py.readF data pos 4).2 4).1)).1 with
      | Except.error e => Except.error e
      | Except.ok s =>
        Pyd3.processFrames data tagSize (Pyd3.dictInsert md fid (Pyd3.FrameContent.text s))
          (Py.readF data (Py.readF data (Py.readF data (Py.readF data pos 4).2 4).2 2).2
            (Pyd3.intFromBytes (Py.readF data (Py.readF data pos 4).2 4).1)).2 fuel := by
  conv_lhs => rw [Pyd3.processFrames]
  rw [if_pos hpos]
  have hfid2 : Py.latin1Decode (Py.readF data pos 4).1 = fid := by rw [hfid]; rfl
  simp only [hfid2, h1]
  rfl

set_option maxHeartbeats 1000000 in
/-- Header processing of get_tag on a source with the fixed 10-byte header
ID3, version 3, revision 0, then size-field bytes 0 0 0 20 and a skipped
byte (get_tag combines source offsets 5 to 8, here 0 0 0 20 giving tag
size 20 + 10 = 30): when the frame walk from position 10 yields a frame
list that formats successfully, the parse returns that formatted tag. -/
theorem get_tag_of_walk (tail : List Nat) (md fmt : List (String × Pyd3.FrameContent))
    (hw : Pyd3.processFrames ([73, 68, 51, 3, 0, 0, 0, 0, 20, 0] ++ tail) 30 [] 10
        (tail.length + 11) = Except.ok md)
    (hf : Pyd3.format_tags md = Except.ok fmt) :
    Pyd3.get_tag ([73, 68, 51, 3, 0, 0, 0, 0, 20, 0] ++ tail) = Except.ok (some fmt) := by
  have e0 : Py.readF ([73, 68, 51, 3, 0, 0, 0, 0, 20, 0] ++ tail) 0 3 = ([73, 68, 51], 3) := rfl
  have e1 : Py.readF ([73, 68, 51, 3, 0, 0, 0, 0, 20, 0] ++ tail) 3 2 = ([3, 0], 5) := rfl
  have e2 : Py.readF ([73, 68, 51, 3, 0, 0, 0, 0, 20, 0] ++ tail) 5 4 = ([0, 0, 0, 20], 9) := rfl
  have e3 : Py.readF ([73, 68, 51, 3, 0, 0, 0, 0, 20, 0] ++ tail) 9 1 = ([0], 10) := rfl
  have ht : Pyd3.tagSizeFromView 0 0 0 20 + 10 = 30 := by decide
  have hl : ([73, 68, 51, 3, 0, 0, 0, 0, 20, 0] ++ tail).length + 1 = tail.length + 11 := by
    simp
  simp only [Pyd3.get_tag, e0, e1, e2, e3, ht, hl]
  rw [if_neg (by decide : ¬([73, 68, 51] ≠ [73, 68, 51])), if_neg (by decide : ¬((3 : Nat) ≠ 3)),
    hw]
  simp only [hf]

/-!
Claim theorems.
-/

/-- C1 counterexample: the claim says the decoders strip bit 7 of each byte
before packing, so that the result is at most 268435455 and the input
0x80 0x00 0x00 0x00 would decode to 0.  Both decoders leave bit 7 in
place: on that input they return 2^28 = 268435456, above the claimed
range, where the claimed masked formula gives 0. -/
theorem c1_counterexample :
    Id3.int_from_sync_safe [128, 0, 0, 0] = 268435456 ∧
    Pyd3.tagSizeFromView 128 0 0 0 = 268435456 ∧
    ((128 &&& 127) <<< 21 ||| (0 &&& 127) <<< 14 ||| (0 &&& 127) <<< 7 ||| (0 &&& 127)) = 0 ∧
    268435455 < 268435456 := by
  refine ⟨?_, by decide, by decide, by decide⟩
  rw [int_from_sync_safe_four]

/-- C1 amended: neither decoder masks bit 7; on 4-byte inputs whose bytes
all lie below 128 (every compliant synchsafe field) both decoders agree
and return b0*2^21 + b1*2^14 + b2*2^7 + b3, which equals the claimed
or-packing there and lies in [0, 268435455]; decoding 0x00 0x00 0x02 0x01
yields 257. -/
theorem c1_amended (b0 b1 b2 b3 : Nat)
    (h0 : b0 < 128) (h1 : b1 < 128) (h2 : b2 < 128) (h3 : b3 < 128) :
    Id3.int_from_sync_safe [b0, b1, b2, b3] = Pyd3.tagSizeFromView b0 b1 b2 b3 ∧
    Id3.int_from_sync_safe [b0, b1, b2, b3] = b0 * 2097152 + b1 * 16384 + b2 * 128 + b3 ∧
    Id3.int_from_sync_safe [b0, b1, b2, b3] ≤ 268435455 ∧
    Id3.int_from_sync_safe [0, 0, 2, 1] = 257 := by
  have hs := int_from_sync_safe_four b0 b1 b2 b3
  have hv := tagSizeFromView_eq_sum b0 b1 b2 b3 h1 h2 h3
  refine ⟨by rw [hs, hv], hs, by rw [hs]; omega, by decide⟩

/-- C1 amended witness at the spec's example bytes. -/
theorem c1_witness :
    Id3.int_from_sync_safe [0, 0, 2, 1] = Pyd3.tagSizeFromView 0 0 2 1 ∧
    Id3.int_from_sync_safe [0, 0, 2, 1] = 0 * 2097152 + 0 * 16384 + 2 * 128 + 1 ∧
    Id3.int_from_sync_safe [0, 0, 2, 1] ≤ 268435455 ∧
    Id3.int_from_sync_safe [0, 0, 2, 1] = 257 :=
  c1_amended 0 0 2 1 (by decide) (by decide) (by decide) (by decide)

/-- C2 counterexample: the pyd3 frame walker decodes the frame-size field
with Python int.from_bytes, i.e. as a plain big-endian integer, not with
the synchsafe codec.  On srcC2 the TIT2 size field 0x00 0x00 0x01 0x00 is
read as 256 — the decoded title holds the 255 bytes after the encoding
byte — while the synchsafe codec used for the tag size would give 128. -/
theorem c2_counterexample :
    Pyd3.get_tag srcC2 =
      Except.ok (some [("title", Pyd3.FrameContent.text (String.mk (List.replicate 255 (Char.ofNat 65))))]) ∧
    Pyd3.intFromBytes [0, 0, 1, 0] = 256 ∧
    Id3.int_from_sync_safe [0, 0, 1, 0] = 128 := by
  refine ⟨by decide, by decide, by decide⟩

/-- C2 amended: only id3's _get_tag_data decodes the 4-byte frame size
with the synchsafe codec; pyd3's get_tag walker decodes it with
int.from_bytes, a plain base-256 big-endian read.  The two decodes of a
4-byte field are the shown closed forms, which differ (e.g. on
0x00 0x00 0x01 0x00). -/
theorem c2_amended (b0 b1 b2 b3 : Nat) :
    Pyd3.intFromBytes [b0, b1, b2, b3] = ((b0 * 256 + b1) * 256 + b2) * 256 + b3 ∧
    Id3.int_from_sync_safe [b0, b1, b2, b3] = b0 * 2097152 + b1 * 16384 + b2 * 128 + b3 := by
  constructor
  · simp [Pyd3.intFromBytes, List.foldl]
  · exact int_from_sync_safe_four b0 b1 b2 b3

/-- C4: the code evaluated at the spec's comment round-trip body.  The
description terminator for encoding 0 is the single NUL at index 9, yet
parse_comment_frame always takes the text from null_index + 2, so the
decoded text is "ull text": the first byte of the full text is dropped,
contradicting both the spec and the layout quoted in the function's own
docstring (a lone 0x00 terminator for a single-byte encoding). -/
theorem c4_code_bug_eval :
    Pyd3.parse_comment_frame commBody =
      Except.ok (Pyd3.FrameContent.comment "eng" "short" "ull text") ∧
    Pyd3.find_terminator commBody 4 0 = 9 := by
  refine ⟨by decide, by decide⟩

/-- C5: every source whose first 3 bytes are not the literal ID3 — however
short the source and whatever follows — makes both top-level parsers
return the absent-tag outcome (Python None respectively an empty dict,
both modelled as ok none), never an error. -/
theorem c5_absent_tag (data : List Nat) (h : data.take 3 ≠ [73, 68, 51]) :
    Pyd3.get_tag data = Except.ok none ∧ Id3.get_tags_frames data = Except.ok none := by
  constructor
  · exact if_pos h
  · have h3 : Py.pySlice (data.take 10) 0 3 ≠ [73, 68, 51] := by
      rw [pySlice_zero_three, List.take_take]
      exact h
    exact if_pos h3

/-- C5 witness on the 3-byte source 1 2 3. -/
theorem c5_witness :
    Pyd3.get_tag [1, 2, 3] = Except.ok none ∧ Id3.get_tags_frames [1, 2, 3] = Except.ok none :=
  c5_absent_tag [1, 2, 3] (by decide)

/-- C6 counterexample: the failure raised for an unsupported version does
not name the encountered version — get_tag raises the same fixed
NotImplementedError for version 4 and version 5 — and id3's get_tags has
no version check at all: on a version-4 source it walks on into the frame
region and extracts frames. -/
theorem c6_counterexample :
    Pyd3.get_tag srcV4 =
      Except.error (Py.PyErr.notImplementedError "ID3v2.4 not currently supported") ∧
    Pyd3.get_tag srcV5 = Pyd3.get_tag srcV4 ∧
    Id3.get_tags_frames srcId3V4 = Except.ok (some [("TIT2", Id3.Content.text "Hello")]) := by
  refine ⟨by decide, by decide, by decide⟩

/-- C6 amended: for every source starting ID3 whose version byte differs
from 3, pyd3's get_tag fails with a NotImplementedError carrying the fixed
message (which does not name the encountered version) and never reaches
the frame region; id3's get_tags performs no version check (see the
counterexample). -/
theorem c6_amended (v : Nat) (rest : List Nat) (hv : v ≠ 3) :
    Pyd3.get_tag (73 :: 68 :: 51 :: v :: rest) =
      Except.error (Py.PyErr.notImplementedError "ID3v2.4 not currently supported") := by
  exact if_pos hv

/-- C6 amended witness at version byte 4. -/
theorem c6_witness :
    Pyd3.get_tag (73 :: 68 :: 51 :: 4 :: [0, 0, 0, 0, 0, 0]) =
      Except.error (Py.PyErr.notImplementedError "ID3v2.4 not currently supported") :=
  c6_amended 4 [0, 0, 0, 0, 0, 0] (by decide)

/-- C3 counterexample: no MalformedFrame failure exists.  srcC3 declares a
tag size of 20, so the tag region is byte offsets 10 to 30, and its TIT2
frame declares a body of 100 bytes though only 10 remain in the region.
The walk succeeds anyway, and the decoded title ends in BEYOND repeated
five times — bytes read from offsets 30 to 60, wholly beyond the tag
region boundary.  On the id3 side, _get_tag_data on tagC3trunc (declared
size 100, 10 body bytes present) silently returns the truncated body. -/
theorem c3_counterexample :
    Pyd3.get_tag srcC3 =
      Except.ok (some [("title",
        Pyd3.FrameContent.text "AAAAAAAAABEYONDBEYONDBEYONDBEYONDBEYOND")]) ∧
    Pyd3.tagSizeFromView 0 0 0 20 + 10 = 30 ∧
    srcC3.length = 60 ∧
    Id3._get_tag_data tagC3trunc [84, 73, 84, 50] = Except.ok (Id3.Content.text "AAAAAAAAA") := by
  refine ⟨by decide, by decide, by decide, by decide⟩

/-- C3 amended: a frame whose declared size exceeds the bytes remaining in
the tag region is not rejected — there is no MalformedFrame outcome.  For
every declared size sz from 40 up (the tag region of srcC3sz has only 10
bytes left for the body, the source only 40), pyd3's get_tag reads the
body on past the tag-region boundary, truncates it silently at the end of
the source, and returns the frame as decoded, BEYOND text included. -/
theorem c3_amended (sz : Nat) (h40 : 40 ≤ sz) (h16 : sz < 65536) :
    Pyd3.get_tag (srcC3sz sz) =
      Except.ok (some [("title",
        Pyd3.FrameContent.text "AAAAAAAAABEYONDBEYONDBEYONDBEYONDBEYOND")]) := by
  have hK : Pyd3.intFromBytes [0, 0, sz / 256, sz % 256] = sz := by
    simp [Pyd3.intFromBytes, List.foldl]
    omega
  have hdrop20 : ([73, 68, 51, 3, 0, 0, 0, 0, 20, 0] ++ srcC3tail sz).drop 20 =
      0 :: (List.replicate 9 65 ++ beyondBytes) := rfl
  have hbody : (([73, 68, 51, 3, 0, 0, 0, 0, 20, 0] ++ srcC3tail sz).drop 20).take sz =
      ([73, 68, 51, 3, 0, 0, 0, 0, 20, 0] ++ srcC3tail sz).drop 20 := by
    apply List.take_of_length_le
    rw [hdrop20]
    simp [beyondBytes]
    omega
  have hread : Py.readF ([73, 68, 51, 3, 0, 0, 0, 0, 20, 0] ++ srcC3tail sz) 20 sz =
      (([73, 68, 51, 3, 0, 0, 0, 0, 20, 0] ++ srcC3tail sz).drop 20, 60) := by
    unfold Py.readF
    rw [hbody, hdrop20]
    rfl
  have hid : "TIT2" = Py.latin1Decode
      ((([73, 68, 51, 3, 0, 0, 0, 0, 20, 0] ++ srcC3tail sz).drop 10).take 4) := by
    have h4 : (([73, 68, 51, 3, 0, 0, 0, 0, 20, 0] ++ srcC3tail sz).drop 10).take 4 =
        [84, 73, 84, 50] := rfl
    rw [h4]
    decide
  have hstep : Pyd3.processFrames ([73, 68, 51, 3, 0, 0, 0, 0, 20, 0] ++ srcC3tail sz)
        30 [] 10 (60 + 1) =
      Except.ok [("TIT2",
        Pyd3.FrameContent.text "AAAAAAAAABEYONDBEYONDBEYONDBEYONDBEYOND")] := by
    rw [processFrames_text_step ([73, 68, 51, 3, 0, 0, 0, 0, 20, 0] ++ srcC3tail sz)
      30 [] 10 60 "TIT2" hid (by norm_num) (by decide)]
    have h14 : (Py.readF ([73, 68, 51, 3, 0, 0, 0, 0, 20, 0] ++ srcC3tail sz)
        (Py.readF ([73, 68, 51, 3, 0, 0, 0, 0, 20, 0] ++ srcC3tail sz) 10 4).2 4).1 =
        [0, 0, sz / 256, sz % 256] := rfl
    rw [h14, hK]
    have h20 : (Py.readF ([73, 68, 51, 3, 0, 0, 0, 0, 20, 0] ++ srcC3tail sz)
        (Py.readF ([73, 68, 51, 3, 0, 0, 0, 0, 20, 0] ++ srcC3tail sz)
          (Py.readF ([73, 68, 51, 3, 0, 0, 0, 0, 20, 0] ++ srcC3tail sz) 10 4).2 4).2 2).2 =
        20 := rfl
    rw [h20, hread]
    rfl
  exact get_tag_of_walk (srcC3tail sz)
    [("TIT2", Pyd3.FrameContent.text "AAAAAAAAABEYONDBEYONDBEYONDBEYONDBEYOND")]
    [("title", Pyd3.FrameContent.text "AAAAAAAAABEYONDBEYONDBEYONDBEYONDBEYOND")]
    (by rw [show (srcC3tail sz).length + 11 = 60 + 1 from rfl]
        exact hstep)
    (by decide)

/-- C3 amended witness at declared size 100. -/
theorem c3_witness :
    Pyd3.get_tag (srcC3sz 100) =
      Except.ok (some [("title",
        Pyd3.FrameContent.text "AAAAAAAAABEYONDBEYONDBEYONDBEYONDBEYOND")]) :=
  c3_amended 100 (by norm_num) (by norm_num)

/-- C8 counterexample: the pyd3 text decoder does not strip non-printable
characters.  Decoding the encoding-0 payload 65 1 66 yields a string that
still contains the control character U+0001, which the repository's own
printable test (id3's clean_string filter) rejects. -/
theorem c8_counterexample :
    Pyd3.decode_id3_text [65, 1, 66] 0 =
      Except.ok (String.mk [Char.ofNat 65, Char.ofNat 1, Char.ofNat 66]) ∧
    Char.ofNat 1 ∈ (String.mk [Char.ofNat 65, Char.ofNat 1, Char.ofNat 66]).data ∧
    Id3.isPrintableChar (Char.ofNat 1) = false := by
  refine ⟨by decide, by decide, by decide⟩

/-- C8 amended: on the encoding-0 path pyd3's decode_id3_text removes all
embedded NUL characters but keeps other non-printable characters, while
id3's clean_string (used by its text-frame handler) yields only printable
characters. -/
theorem c8_amended :
    (∀ (l : List Nat) (s : String), Pyd3.decode_id3_text l 0 = Except.ok s →
      Char.ofNat 0 ∉ s.data) ∧
    (∀ (s : String), ∀ c ∈ (Id3.clean_string s).data, Id3.isPrintableChar c = true) := by
  constructor
  · intro l s h
    have h0 : Pyd3.decode_id3_text l 0 = Except.ok (Pyd3.removeNull (Py.latin1Decode l)) := rfl
    rw [h0] at h
    have h2 : Pyd3.removeNull (Py.latin1Decode l) = s := Except.ok.inj h
    subst h2
    intro hmem
    have hmem2 : Char.ofNat 0 ∈
        (Py.latin1Decode l).data.filter (fun c => decide (c ≠ Char.ofNat 0)) := hmem
    have := (List.mem_filter.mp hmem2).2
    simp at this
  · intro s c hc
    have hc2 : c ∈ s.data.filter Id3.isPrintableChar := hc
    exact (List.mem_filter.mp hc2).2

/-- C8 amended witness: the NUL bytes of the payload 0 65 0 are gone from
the decoded string. -/
theorem c8_witness : Char.ofNat 0 ∉ (String.mk [Char.ofNat 65]).data :=
  c8_amended.1 [0, 65, 0] (String.mk [Char.ofNat 65]) (by decide)

/-- C7 counterexample: the claim fails on id3's get_tags, which locates
frames by substring search instead of walking.  In srcC7id3 the unknown
XXXX frame's body embeds the bytes of a TIT2 frame header, so
tag.find(TIT2) lands at region offset 10 inside that body and
_get_tag_data decodes the single byte 65 there to the text A, while the
genuine TIT2 frame that occurs after the unknown frame in the same tag
region — whose body decodes to Hello — is never decoded and absent from
the result map. -/
theorem c7_counterexample :
    Id3.get_tags_frames srcC7id3 = Except.ok (some [("TIT2", Id3.Content.text "A")]) ∧
    Id3.bytesFind (srcC7id3.drop 10) [84, 73, 84, 50] = 10 ∧
    Id3.handle_text_frame [0, 72, 101, 108, 108, 111] [] = "Hello" := by
  refine ⟨by decide, by decide, by decide⟩

/-- C7 amended: pyd3's walker skips an unrecognized frame without failing
and decodes everything after it unchanged; id3's substring search does not
abort either, but an unknown frame whose body embeds a known frame id can
divert it from a genuine later frame (see the counterexample).  Proved for
the pyd3 walker: whenever it stands on a frame whose 4-byte id matches
none of the decoders (not the text-frame pattern minus TXXX, not APIC, not
COMM), the walk equals the walk restarted just past that frame, with the
metadata and the remaining fuel unchanged — the frame is skipped without
failing, and every frame after it is decoded exactly as it would have
been, so each later valid frame ends up in the result map. -/
theorem c7_unknown_frame_skipped (data : List Nat) (tagSize : Nat)
    (md : List (String × Pyd3.FrameContent)) (pos fuel : Nat) (fid : String)
    (hfid : fid = Py.latin1Decode ((data.drop pos).take 4))
    (hpos : pos < tagSize)
    (h1 : (Pyd3.isTextFrameId fid && fid != "TXXX") = false)
    (h2 : (fid == "APIC") = false)
    (h3 : (fid == "COMM") = false) :
    Pyd3.processFrames data tagSize md pos (fuel + 1) =
      Pyd3.processFrames data tagSize md
        (Py.readF data (Py.readF data (Py.readF data (Py.readF data pos 4).2 4).2 2).2
          (Pyd3.intFromBytes (Py.readF data (Py.readF data pos 4).2 4).1)).2 fuel := by
  conv_lhs => rw [Pyd3.processFrames]
  rw [if_pos hpos]
  have hfid2 : Py.latin1Decode (Py.readF data pos 4).1 = fid := by rw [hfid]; rfl
  simp only [hfid2, h1, h2, h3]
  rfl

/-- C7 witness: on regionC7 the XXXX frame at position 0 is skipped and
the walk continues at position 12; run to the end it still decodes the
TIT2 frame that follows. -/
theorem c7_witness :
    Pyd3.processFrames regionC7 24 [] 0 13 = Pyd3.processFrames regionC7 24 [] 12 12 ∧
    Pyd3.processFrames regionC7 24 [] 0 13 =
      Except.ok [("TIT2", Pyd3.FrameContent.text "H")] := by
  constructor
  · exact c7_unknown_frame_skipped regionC7 24 [] 0 12 "XXXX" (by decide) (by decide)
      (by decide) (by decide) (by decide)
  · decide

/-- Specification of the single-byte terminator scan: it returns -1 or the
index, counted in the enclosing data, of a zero byte at or past the scan
start.  The list argument walks the suffix of the data starting at i. -/
theorem findTermSingle_spec (l : List Nat) (i : Nat) :
    Pyd3.findTermSingle l i = -1 ∨
      ∃ j : Nat, Pyd3.findTermSingle l i = (j : Int) ∧ i ≤ j ∧ j - i < l.length ∧
        l.getD (j - i) 1 = 0 := by
  induction l generalizing i with
  | nil => exact Or.inl rfl
  | cons b rest ih =>
    by_cases hb : b = 0
    · refine Or.inr ⟨i, ?_, le_refl i, ?_, ?_⟩
      · simp [Pyd3.findTermSingle, hb]
      · simp
      · simp [hb]
    · rcases ih (i + 1) with h | ⟨j, hj, hij, hjl, hz⟩
      · left
        simpa [Pyd3.findTermSingle, hb] using h
      · right
        refine ⟨j, ?_, by omega, ?_, ?_⟩
        · simpa [Pyd3.findTermSingle, hb] using hj
        · simp only [List.length_cons]
          omega
        · have hji : j - i = (j - (i + 1)) + 1 := by omega
          rw [hji]
          simpa using hz

/-- Specification of the paired terminator scan: it returns -1 or the
index, counted in the enclosing data, of an aligned 0x00 0x00 pair at or
past the scan start, at an even distance from it. -/
theorem findTermPair_spec (l : List Nat) (i : Nat) :
    Pyd3.findTermPair l i = -1 ∨
      ∃ j : Nat, Pyd3.findTermPair l i = (j : Int) ∧ i ≤ j ∧ j - i + 1 < l.length ∧
        l.getD (j - i) 1 = 0 ∧ l.getD (j - i + 1) 1 = 0 ∧ (j - i) % 2 = 0 := by
  suffices h : ∀ (n : Nat) (l : List Nat) (i : Nat), l.length ≤ n →
      (Pyd3.findTermPair l i = -1 ∨
        ∃ j : Nat, Pyd3.findTermPair l i = (j : Int) ∧ i ≤ j ∧ j - i + 1 < l.length ∧
          l.getD (j - i) 1 = 0 ∧ l.getD (j - i + 1) 1 = 0 ∧ (j - i) % 2 = 0) from
    h l.length l i (le_refl _)
  intro n
  induction n with
  | zero =>
    intro l i hl
    rcases l with _ | ⟨a, rest⟩
    · exact Or.inl rfl
    · simp at hl
  | succ n ih =>
    intro l i hl
    rcases l with _ | ⟨a, _ | ⟨b, rest⟩⟩
    · exact Or.inl rfl
    · exact Or.inl rfl
    · by_cases hab : a = 0 ∧ b = 0
      · refine Or.inr ⟨i, ?_, le_refl i, ?_, ?_, ?_, ?_⟩
        · simp [Pyd3.findTermPair, hab]
        · simp only [Nat.sub_self, List.length_cons]
          omega
        · simp [Nat.sub_self, hab.1]
        · simp [Nat.sub_self, hab.2]
        · simp [Nat.sub_self]
      · have hstep : Pyd3.findTermPair (a :: b :: rest) i = Pyd3.findTermPair rest (i + 2) := by
          simp [Pyd3.findTermPair, hab]
        have hrl : rest.length ≤ n := by
          simp only [List.length_cons] at hl
          omega
        rcases ih rest (i + 2) hrl with hr | ⟨j, hj, hij, hjl, hz1, hz2, hpar⟩
        · exact Or.inl (hstep.trans hr)
        · refine Or.inr ⟨j, hstep.trans hj, by omega, ?_, ?_, ?_, ?_⟩
          · simp only [List.length_cons]
            omega
          · have hji : j - i = (j - (i + 2)) + 2 := by omega
            rw [hji]
            simpa using hz1
          · have hji : j - i + 1 = (j - (i + 2)) + 1 + 2 := by omega
            rw [hji]
            simpa using hz2
          · omega

/-- Indexing into a dropped suffix is indexing into the list. -/
theorem getD_drop (l : List Nat) (n k : Nat) : (l.drop n).getD k 1 = l.getD (n + k) 1 := by
  induction l generalizing n with
  | nil => simp
  | cons a rest ih =>
    cases n with
    | zero => simp
    | succ m =>
      rw [List.drop_succ_cons, ih m, Nat.succ_add, List.getD_cons_succ]

/-- C9: find_terminator returns -1 or an index i with offset ≤ i <
length at which the data holds a zero byte; for a non-zero encoding it
moreover guarantees i + 1 < length, a second zero byte at i + 1, and an
even distance i - offset from the scan start, so slicing at a
non-negative result stays in bounds. -/
theorem c9_find_terminator (data : List Nat) (offset encoding : Nat) :
    Pyd3.find_terminator data offset encoding = -1 ∨
      ∃ i : Nat, Pyd3.find_terminator data offset encoding = (i : Int) ∧
        offset ≤ i ∧ i < data.length ∧ data.getD i 1 = 0 ∧
        (encoding = 0 ∨
          (i + 1 < data.length ∧ data.getD (i + 1) 1 = 0 ∧ (i - offset) % 2 = 0)) := by
  unfold Pyd3.find_terminator
  by_cases he : encoding = 0
  · rw [if_pos he]
    rcases findTermSingle_spec (data.drop offset) offset with hr | ⟨j, hj, hij, hjl, hz⟩
    · exact Or.inl hr
    · refine Or.inr ⟨j, hj, hij, ?_, ?_, Or.inl he⟩
      · simp only [List.length_drop] at hjl
        omega
      · have := (getD_drop data offset (j - offset)).symm.trans hz
        rwa [Nat.add_sub_cancel' hij] at this
  · rw [if_neg he]
    rcases findTermPair_spec (data.drop offset) offset with hr | ⟨j, hj, hij, hjl, hz1, hz2, hpar⟩
    · exact Or.inl hr
    · have hlen : j - offset + 1 < data.length - offset := by
        simpa only [List.length_drop] using hjl
      refine Or.inr ⟨j, hj, hij, by omega, ?_, Or.inr ⟨by omega, ?_, hpar⟩⟩
      · have := (getD_drop data offset (j - offset)).symm.trans hz1
        rwa [Nat.add_sub_cancel' hij] at this
      · have := (getD_drop data offset (j - offset + 1)).symm.trans hz2
        have harith : offset + (j - offset + 1) = j + 1 := by omega
        rwa [harith] at this

/-- C10: for every encoding selector other than 0 and 1, decode_id3_text
returns the empty string and never raises. -/
theorem c10_other_encodings (l : List Nat) (e : Nat) (h0 : e ≠ 0) (h1 : e ≠ 1) :
    Pyd3.decode_id3_text l e = Except.ok "" := by
  unfold Pyd3.decode_id3_text
  rw [if_neg h0, if_neg h1]
  rfl

/-- C10 witness at encoding 2 (UTF-16BE). -/
theorem c10_witness : Pyd3.decode_id3_text [65, 66] 2 = Except.ok "" :=
  c10_other_encodings [65, 66] 2 (by decide) (by decide)

